import Mathlib

/-!
# WonderWims front end: session provider and tour card

A shallow embedding of `Frontend/src/AuthContext.jsx` (the operations `login`,
`logout`, `fetchuserBookings`, `removeBooking` of `AuthProvider`) and of
`Frontend/src/components/Card.jsx` (`TourCard`), followed by the properties
established about them.

Modelling conventions.

* JavaScript values are the values a parsed JSON body can hold (`JSVal`), with
  `undefined` added. A number is carried by its `Number::toString` rendering, so
  that no floating point arithmetic is needed.
* Every browser side effect of the source is an explicit field of `World`:
  assignments to `document.cookie`, the contents of `localStorage`, the React
  state `user`, the calls of `navigate`, the requests handed to `fetch`, and the
  calls of the `setData` sink. Console output is not recorded, but the
  arguments of a console call are evaluated where the source evaluates them.
* The servers are an input: each operation receives the outcome the network
  gives to each request it issues.
* An `async` function is run to completion in one step; its promise is
  fulfilled (`Except.ok`) or rejected (`Except.error`).
* Storage writes are taken to succeed (no quota or security error).
-/

namespace WonderWims

/-! ## JavaScript values -/

/-- JavaScript values: `undefined` and the values produced by `JSON.parse`.
A number is represented by the string `Number::toString` gives for it. -/
inductive JSVal where
  | undefined
  | null
  | bool (b : Bool)
  | num (shown : String)
  | str (s : String)
  | arr (items : List JSVal)
  | obj (fields : List (String × JSVal))

/-- A thrown JavaScript error object (`TypeError`, `SyntaxError`, ...). -/
structure JSError where
  name : String
  message : String
deriving DecidableEq, Repr

/-- The `TypeError` raised by reading property `k` of `undefined` or `null`
(`base` is the text "undefined" or "null"). The wording is the one of V8, with
the property name between single quotes; other engines word it differently. -/
def propertyReadError (base k : String) : JSError :=
  ⟨"TypeError", "Cannot read properties of " ++ base ++ " (reading \x27" ++ k ++ "\x27)"⟩

/-- The `TypeError` raised when an object has no usable `toString`. -/
def toPrimitiveError : JSError :=
  ⟨"TypeError", "Cannot convert object to primitive value"⟩

/-- The `TypeError` raised by `for ... of` over a value that is not iterable. -/
def notIterableError : JSError :=
  ⟨"TypeError", "object is not iterable"⟩

/-- The `TypeError` raised by calling a value that is not a function. -/
def notCallableError (what : String) : JSError :=
  ⟨"TypeError", what ++ " is not a function"⟩

namespace JSVal

/-- Whether an object has an own property named `k`. -/
def hasKey (k : String) : List (String × JSVal) → Bool
  | [] => false
  | (n, _) :: rest => if n = k then true else hasKey k rest

/-- The value of own property `k` of an object, `undefined` when absent. -/
def lookupField (k : String) : List (String × JSVal) → JSVal
  | [] => .undefined
  | (n, v) :: rest => if n = k then v else lookupField k rest

/-- The value is `undefined` or `null`. -/
def isNullish : JSVal → Bool
  | .undefined => true
  | .null => true
  | _ => false

/-- The member access `v.k`, which throws on `undefined` and `null`. The
property names read by the source (`jwt`, `userId`, `role`, `message`, `rows`,
`booked_state_id`, `data`, `tourId`, ...) are not defined on any built-in
prototype, so on a primitive or an array the access gives `undefined`. -/
def getProp (v : JSVal) (k : String) : Except JSError JSVal :=
  match v with
  | .undefined => .error (propertyReadError "undefined" k)
  | .null => .error (propertyReadError "null" k)
  | .obj fields => .ok (lookupField k fields)
  | _ => .ok .undefined

/-- The optional member access `v?.k`. -/
def optProp (v : JSVal) (k : String) : JSVal :=
  match v with
  | .obj fields => lookupField k fields
  | _ => .undefined

/-- The nullish coalescing `a ?? b`. -/
def coalesce (a b : JSVal) : JSVal :=
  match a with
  | .undefined => b
  | .null => b
  | v => v

/-- Prepends a rendered array element to the rendered rest. -/
def consStr : Except JSError String → Except JSError (List String) → Except JSError (List String)
  | .ok a, .ok l => .ok (a :: l)
  | .error e, _ => .error e
  | .ok _, .error e => .error e

mutual
/-- The conversion `ToString` (template literals, string concatenation, the
value argument of `localStorage.setItem`). A parsed object converts through
`Object.prototype.toString`, unless an own property `toString` (never callable
in parsed JSON) hides it, in which case the conversion throws. An array
converts through `join`. -/
def toStr : JSVal → Except JSError String
  | .undefined => .ok "undefined"
  | .null => .ok "null"
  | .bool true => .ok "true"
  | .bool false => .ok "false"
  | .num shown => .ok shown
  | .str s => .ok s
  | .arr items =>
    match itemStrs items with
    | .ok l => .ok (",".intercalate l)
    | .error e => .error e
  | .obj fields => if hasKey "toString" fields then .error toPrimitiveError else .ok "[object Object]"
termination_by structural v => v
/-- The element strings of `Array.prototype.join`: `undefined` and `null`
give the empty string. -/
def itemStrs : List JSVal → Except JSError (List String)
  | [] => .ok []
  | .undefined :: rest => consStr (.ok "") (itemStrs rest)
  | .null :: rest => consStr (.ok "") (itemStrs rest)
  | v :: rest => consStr (toStr v) (itemStrs rest)
termination_by structural l => l
end

/-- The values visited by `for (const i of v)`: the elements of an array, the
characters of a string; any other parsed value is not iterable. -/
def iterate : JSVal → Except JSError (List JSVal)
  | .arr items => .ok items
  | .str s => .ok (s.data.map (fun c => .str (String.singleton c)))
  | _ => .error notIterableError

/-- The strict comparison `v === s` against a string. -/
def strictEqStr (v : JSVal) (s : String) : Bool :=
  match v with
  | .str t => t == s
  | _ => false

end JSVal

/-! ## Browser state -/

/-- The object given to `setUser` by `login`. -/
structure Session where
  userId : JSVal
  role : JSVal

/-- The body handed to `fetch`. -/
inductive RequestBody where
  | none
  | json (v : JSVal)

/-- A call of `fetch`: method, URL, headers and body (`JSON.stringify v` is
kept as the value `v`). -/
structure Request where
  method : String
  url : String
  headers : List (String × String)
  body : RequestBody

/-- What the network gives to one `fetch(...)` followed by `response.json()`. -/
inductive FetchOutcome where
  | rejected (err : JSError)
  | unparseable (status : Nat) (err : JSError)
  | parsed (status : Nat) (body : JSVal)

/-- The explicit state: every effect the source has on the browser, in order. -/
structure World where
  cookieWrites : List String
  localStorage : List (String × String)
  user : Option Session
  redirects : List String
  requests : List Request
  sinkCalls : List (List JSVal)

/-- The storage call `localStorage.getItem(k)` (`none` is `null`). -/
def getItem (k : String) : List (String × String) → Option String
  | [] => none
  | (n, v) :: rest => if n = k then some v else getItem k rest

/-- The storage call `localStorage.setItem(k, v)`. -/
def setItem (k v : String) : List (String × String) → List (String × String)
  | [] => [(k, v)]
  | (n, x) :: rest => if n = k then (k, v) :: rest else (n, x) :: setItem k v rest

/-! ## Effectful computations -/

/-- The end of a computation: fulfilled or rejected, and the state it leaves. -/
structure Outcome (α : Type) where
  result : Except JSError α
  world : World

/-- A computation over the browser state that may throw. A throw keeps the
effects performed before it. -/
def Eff (α : Type) : Type := World → Outcome α

namespace Eff

/-- Returns a value without effect. -/
def ret {α : Type} (a : α) : Eff α := fun w => ⟨.ok a, w⟩

/-- Sequencing: a throw in the first part skips the second. -/
def andThen {α β : Type} (m : Eff α) (f : α → Eff β) : Eff β := fun w =>
  match m w with
  | ⟨.ok a, w1⟩ => f a w1
  | ⟨.error e, w1⟩ => ⟨.error e, w1⟩

/-- The statement `try m catch (error) h`. -/
def tryCatch {α : Type} (m : Eff α) (h : JSError → Eff α) : Eff α := fun w =>
  match m w with
  | ⟨.ok a, w1⟩ => ⟨.ok a, w1⟩
  | ⟨.error e, w1⟩ => h e w1

/-- Evaluation of an expression that may throw. -/
def compute {α : Type} (x : Except JSError α) : Eff α := fun w => ⟨x, w⟩

/-- A state change that cannot throw. -/
def effect (f : World → World) : Eff Unit := fun w => ⟨.ok (), f w⟩

instance : Monad Eff where
  pure := ret
  bind := andThen

end Eff

/-- The awaited pair `fetch(req)` and `response.json()`: the request is issued,
then the status and the parsed body are returned, or the rejection is thrown. -/
def fetchJson (out : FetchOutcome) (req : Request) : Eff (Nat × JSVal) := fun w =>
  let w1 := { w with requests := w.requests ++ [req] }
  match out with
  | .rejected e => ⟨.error e, w1⟩
  | .unparseable _ e => ⟨.error e, w1⟩
  | .parsed status body => ⟨.ok (status, body), w1⟩

/-- The assignment `document.cookie = s`. -/
def writeCookie (s : String) : Eff Unit :=
  Eff.effect fun w => { w with cookieWrites := w.cookieWrites ++ [s] }

/-- The call `localStorage.setItem(k, v)`. -/
def storageSet (k v : String) : Eff Unit :=
  Eff.effect fun w => { w with localStorage := setItem k v w.localStorage }

/-- The call `localStorage.clear()`. -/
def storageClear : Eff Unit :=
  Eff.effect fun w => { w with localStorage := [] }

/-- The call `setUser(u)`. -/
def setUser (u : Option Session) : Eff Unit :=
  Eff.effect fun w => { w with user := u }

/-- A call of a navigation function with `target`. -/
def navigate (target : String) : Eff Unit :=
  Eff.effect fun w => { w with redirects := w.redirects ++ [target] }

/-- The call `setData(listData)` of the sink passed to `fetchuserBookings`. -/
def setData (listData : List JSVal) : Eff Unit :=
  Eff.effect fun w => { w with sinkCalls := w.sinkCalls ++ [listData] }

/-! ## `login` -/

/-- The object returned by `login`: `success` carries `jwt`, `userId` and
`userRole`; `failure` carries `message`. -/
inductive LoginResult where
  | success (jwt userId userRole : JSVal)
  | failure (message : JSVal)

/-- The request `login` sends to `/users/signin`. -/
def signinRequest (email password : String) : Request :=
  { method := "POST"
    url := "http://127.0.0.1:8443/users/signin"
    headers := [("Content-Type", "application/json")]
    body := .json (.obj [("email", .str email), ("password", .str password)]) }

/-- The `try` block of `login` (lines 16 to 43). -/
def loginTry (server : Request → FetchOutcome) (email password : String) : Eff LoginResult := do
  let req := signinRequest email password
  let (status, r) ← fetchJson (server req) req
  if status = 200 then
    let jwt ← Eff.compute (r.getProp "jwt")
    let jwtStr ← Eff.compute jwt.toStr
    writeCookie ("token=" ++ jwtStr ++ "; expires=" ++ "86400")
    let userId ← Eff.compute (r.getProp "userId")
    let userIdStr ← Eff.compute userId.toStr
    storageSet "userId" userIdStr
    let role ← Eff.compute (r.getProp "role")
    setUser (some { userId := userId, role := role })
    if role.strictEqStr "ADMIN" then
      navigate "/admin"
    else
      navigate "/home"
    pure (.success jwt userId role)
  else
    let message ← Eff.compute (r.getProp "message")
    pure (.failure message)

/-- The function `login(email, password)` (lines 14 to 48): the `try` block, and
the `catch` block that turns any thrown error into a failure result. -/
def login (server : Request → FetchOutcome) (email password : String) : Eff LoginResult :=
  Eff.tryCatch (loginTry server email password)
    (fun error => pure (.failure (.str error.message)))

/-! ## `logout` -/

/-- The function `logout(navigate)` (lines 50 to 57). The parameter `navigate`
is the navigation handle passed by the caller, which hides the one of the hook;
`nowUTC` is the text of `new Date(Date.now() + 0 * 1000).toUTCString()`. -/
def logout (navigate : String → Eff Unit) (nowUTC : String) : Eff Unit := do
  writeCookie ("token=;expires=" ++ nowUTC)
  storageClear
  setUser none
  navigate "/signup"

/-! ## `fetchuserBookings` -/

/-- The method `String.prototype.split(sep)` for a one-character separator. -/
def jsSplit (sep : Char) : List Char → List (List Char)
  | [] => [[]]
  | c :: cs =>
    if c = sep then [] :: jsSplit sep cs
    else
      match jsSplit sep cs with
      | [] => [[c]]
      | field :: fields => (c :: field) :: fields

/-- The expression `s.split(sep)` on strings. -/
def splitString (sep : Char) (s : String) : List String :=
  (jsSplit sep s.data).map String.mk

/-- The expression `document.cookie.split('=')[1]` (`none` is `undefined`),
where `cookie` is the text `document.cookie` reads. -/
def cookieField (cookie : String) : Option String :=
  (splitString '=' cookie)[1]?

/-- The text a template literal gives for `co`. -/
def bearerValue (cookie : String) : String :=
  (cookieField cookie).getD "undefined"

/-- The request listing the bookings of the stored user (lines 66 to 74);
`userId` is `localStorage.getItem("userId")`, `null` when absent. -/
def bookingsRequest (userId : Option String) (cookie : String) : Request :=
  { method := "GET"
    url := "http://127.0.0.1:8443/v2/bookings/user/" ++ userId.getD "null"
    headers := [("Authorization", "Bearer " ++ bearerValue cookie),
                ("Content-Type", "application/json"),
                ("Access-Control-Allow-Origin", "*")]
    body := .none }

/-- The request resolving one destination (line 82), for the text of
`i.booked_state_id`. -/
def lookupRequest (stateId : String) : Request :=
  { method := "GET"
    url := "http://127.0.0.1:3000/get/" ++ stateId
    headers := []
    body := .none }

/-- The loop of lines 80 to 86 over the rows still to visit. `n` is the number
of requests this call has issued so far, `listData` the list accumulated so
far; `net n` answers the next request. -/
def enrichRows (net : Nat → Request → FetchOutcome) : Nat → List JSVal → List JSVal → Eff (List JSVal)
  | _, [], listData => pure listData
  | n, i :: rest, listData => do
    let stateId ← Eff.compute (i.getProp "booked_state_id")
    let stateIdStr ← Eff.compute stateId.toStr
    let req := lookupRequest stateIdStr
    let (_, location_data) ← fetchJson (net n req) req
    let d ← Eff.compute (location_data.getProp "data")
    enrichRows net (n + 1) rest (listData ++ [d])

/-- The function `fetchuserBookings(data, setData)` (lines 59 to 90). `cookie` is
the text `document.cookie` reads; `net n` is the answer of the network to the
request issued after `n` earlier ones. The parameter `data` is never used. -/
def fetchuserBookings (cookie : String) (net : Nat → Request → FetchOutcome) : Eff Unit := fun w =>
  let userId := getItem "userId" w.localStorage
  let req := bookingsRequest userId cookie
  (do
    let (_, user_data) ← fetchJson (net 0 req) req
    let rowsVal ← Eff.compute (user_data.getProp "rows")
    let rows ← Eff.compute rowsVal.iterate
    let listData ← enrichRows net 1 rows []
    setData listData : Eff Unit) w

/-! ## `removeBooking` -/

/-- The request of `removeBooking` (lines 93 to 95). -/
def removeRequest (idStr : String) : Request :=
  { method := "POST"
    url := "http://127.0.0.1:3000/removeBooking/" ++ idStr
    headers := []
    body := .none }

/-- The function `removeBooking(id)` (lines 92 to 102): the parsed response is
dropped. -/
def removeBooking (server : Request → FetchOutcome) (id : JSVal) : Eff Unit := do
  let idStr ← Eff.compute id.toStr
  let req := removeRequest idStr
  let _ ← fetchJson (server req) req
  pure ()

/-! ## The provider as a transition system -/

/-- A call of one of the four operations the provider exposes, with the inputs
the environment gives it. A `logout` is called with a navigation function of
the router. -/
inductive Action where
  | login (server : Request → FetchOutcome) (email password : String)
  | logout (nowUTC : String)
  | fetchuserBookings (cookie : String) (net : Nat → Request → FetchOutcome)
  | removeBooking (server : Request → FetchOutcome) (id : JSVal)

/-- The state an operation leaves. -/
def step (w : World) : Action → World
  | .login server email password => (login server email password w).world
  | .logout nowUTC => (logout navigate nowUTC w).world
  | .fetchuserBookings cookie net => (fetchuserBookings cookie net w).world
  | .removeBooking server id => (removeBooking server id w).world

/-- The state after a sequence of operations. -/
def run (w : World) (actions : List Action) : World :=
  actions.foldl step w

/-- The state at mount: `useState(null)`, nothing done yet; the storage holds
whatever an earlier page load left. -/
def initial (storage : List (String × String)) : World :=
  { cookieWrites := [], localStorage := storage, user := none,
    redirects := [], requests := [], sinkCalls := [] }

/-- A field holds a value: it is neither `undefined` nor `null`. -/
def populated (v : JSVal) : Bool := !v.isNullish

/-- The session is absent, or both of its fields hold a value. -/
def sessionWhole (w : World) : Bool :=
  match w.user with
  | none => true
  | some s => populated s.userId && populated s.role

/-! ## `TourCard` -/

/-- The `Error` React raises for an object used as a child. -/
def invalidChildError : JSError :=
  ⟨"Error", "Objects are not valid as a React child"⟩

mutual
/-- The text React renders for a child expression: a string or a number is
shown, `undefined`, `null` and booleans render nothing, the elements of an array
are rendered one after the other, an object is refused. -/
def renderChild : JSVal → Except JSError String
  | .undefined => .ok ""
  | .null => .ok ""
  | .bool _ => .ok ""
  | .num shown => .ok shown
  | .str s => .ok s
  | .arr items =>
    match renderChildren items with
    | .ok l => .ok (String.join l)
    | .error e => .error e
  | .obj _ => .error invalidChildError
termination_by structural v => v
/-- The texts of the elements of an array child. -/
def renderChildren : List JSVal → Except JSError (List String)
  | [] => .ok []
  | v :: rest => JSVal.consStr (renderChild v) (renderChildren rest)
termination_by structural l => l
end

/-- The expression `new Date(v).toLocaleDateString()`. The empty string is no
date: its time value is `NaN`, which `toLocaleDateString` shows as
"Invalid Date". For every other argument the text depends on the engine and the
locale and is given by `localeDate`. -/
def dateText (localeDate : JSVal → Except JSError String) (v : JSVal) : Except JSError String :=
  match v with
  | .str s => if s = "" then .ok "Invalid Date" else localeDate (.str s)
  | w => localeDate w

/-- The call `(tour?.destinations ?? []).map(i => <li>{i?.destName}</li>)`: the
child expression of each list item, in order. A value that is not an array has
no `map`. -/
def destinationItems (destinations : JSVal) : Except JSError (List JSVal) :=
  match destinations with
  | .arr items => .ok (items.map fun i => i.optProp "destName")
  | _ => .error (notCallableError "map")

/-- What a rendered card shows: the text inside `url(...)` of the background
image, the title, the duration and the date of the subtitle, the description,
the text after the price sign, and the text of each destination item. -/
structure CardView where
  imageUrl : String
  title : String
  duration : String
  date : String
  description : String
  price : String
  destinations : List String
deriving DecidableEq, Repr

/-- The body of `TourCard` (lines 7 to 36): each field is read with `tour?.f`
and defaulted with `?? ""`. The call of the component evaluates the expressions
that can throw, in source order: the template literal of the background image,
the date, the `map` over the destinations. React renders the children of the
returned element afterwards, in display order, and refuses an object. -/
def TourCard (localeDate : JSVal → Except JSError String) (tour : JSVal) : Except JSError CardView := do
  let imageUrl ← ((tour.optProp "imageLink").coalesce (.str "")).toStr
  let date ← dateText localeDate ((tour.optProp "startDate").coalesce (.str ""))
  let items ← destinationItems ((tour.optProp "destinations").coalesce (.arr []))
  let title ← renderChild ((tour.optProp "title").coalesce (.str ""))
  let duration ← renderChild ((tour.optProp "duration").coalesce (.str ""))
  let description ← renderChild ((tour.optProp "description").coalesce (.str ""))
  let price ← renderChild ((tour.optProp "price").coalesce (.str ""))
  let destinations ← renderChildren items
  pure { imageUrl := imageUrl, title := title, duration := duration, date := date,
         description := description, price := price, destinations := destinations }

/-- A value passed as `handleUpdate` or `handleDelete`: a function, known by
its name, or any other value (`value undefined` is a prop left out). -/
inductive Handler where
  | fn (name : String)
  | value (v : JSVal)

/-- The default `= null` of the two handler parameters (line 5): it replaces
`undefined` only. -/
def defaultNull : Handler → Handler
  | .value .undefined => .value .null
  | h => h

/-- A call of a handler function with its arguments. -/
structure HandlerCall where
  callee : String
  args : List JSVal

/-- The props of `TourCard`. -/
structure Props where
  tour : JSVal
  handleDelete : Handler
  handleUpdate : Handler

/-- The call `handler(tour.tourId)`: the argument is evaluated first, then the
callee is checked to be a function. The result lists the handler calls made. -/
def callWithTourId (what : String) (handler : Handler) (tour : JSVal) : Except JSError (List HandlerCall) :=
  match tour.getProp "tourId" with
  | .error e => .error e
  | .ok tourId =>
    match defaultNull handler with
    | .fn name => .ok [{ callee := name, args := [tourId] }]
    | .value _ => .error (notCallableError what)

/-- The `onClick` of the Update button (line 31). -/
def clickUpdate (p : Props) : Except JSError (List HandlerCall) :=
  callWithTourId "handleUpdate" p.handleUpdate p.tour

/-- The `onClick` of the Delete button (line 32). -/
def clickDelete (p : Props) : Except JSError (List HandlerCall) :=
  callWithTourId "handleDelete" p.handleDelete p.tour

/-! ## Vocabulary of the statements -/

/-- The target `login` navigates to for a role (lines 33 to 37). -/
def roleTarget (role : JSVal) : String :=
  if role.strictEqStr "ADMIN" then "/admin" else "/home"

/-- The value converts to text: `ToString` does not throw on it. -/
def convertsToText (v : JSVal) : Bool :=
  match v.toStr with
  | .ok _ => true
  | .error _ => false

/-- The body is not `null` and its `jwt` and `userId` convert to text: the
condition under which the success branch of `login` runs to its end. -/
def successBranchCompletes (body : JSVal) : Bool :=
  !body.isNullish && convertsToText (body.optProp "jwt") &&
    convertsToText (body.optProp "userId")

/-- The awaited promise of a request rejects: `fetch` is rejected by the
network, or `response.json()` is rejected because the body is not JSON. A
response with an error status and a JSON body does not reject. -/
def FetchOutcome.rejects : FetchOutcome → Bool
  | .rejected _ => true
  | .unparseable _ _ => true
  | .parsed _ _ => false

/-- The HTTP status of the response, when one arrived. -/
def FetchOutcome.status? : FetchOutcome → Option Nat
  | .rejected _ => none
  | .unparseable status _ => some status
  | .parsed status _ => some status

/-- One successful turn of the enrichment loop: the booking row, the text of
its `booked_state_id`, and the status, body and `data` field of the response
to its lookup. -/
structure RowTrace where
  row : JSVal
  stateId : String
  status : Nat
  body : JSVal
  data : JSVal

/-- Every sign-in response with status 200 that the server can give carries a
`userId` and a `role`. -/
def carriesIdentity (server : Request → FetchOutcome) : Prop :=
  ∀ req body, server req = .parsed 200 body →
    populated (body.optProp "userId") = true ∧ populated (body.optProp "role") = true

/-- The sign-in servers met by the `login` calls of a sequence all carry a
`userId` and a `role` in their status 200 responses. -/
def loginsCarryIdentity : List Action → Prop
  | [] => True
  | .login server _ _ :: rest => carriesIdentity server ∧ loginsCarryIdentity rest
  | _ :: rest => loginsCarryIdentity rest

/-- The fields other than the request log are the same in both states. -/
def sameButRequests (w w1 : World) : Prop :=
  w1.cookieWrites = w.cookieWrites ∧ w1.localStorage = w.localStorage ∧ w1.user = w.user ∧
    w1.redirects = w.redirects ∧ w1.sinkCalls = w.sinkCalls

/-- The text of `t` before its first `=` (all of `t` when it has none). -/
def beforeFirstEq (t : String) : String :=
  String.mk (t.data.takeWhile (· != '='))

/-! ## Sample inputs -/

/-- A sign-in body of an administrator. -/
def sampleAdminBody : JSVal :=
  .obj [("jwt", .str "tok"), ("userId", .str "u1"), ("role", .str "ADMIN")]

/-- A sign-in body without a `role`. -/
def sampleBodyWithoutRole : JSVal :=
  .obj [("jwt", .str "tok"), ("userId", .str "u1")]

/-- A sign-in refusal body. -/
def sampleRefusalBody : JSVal :=
  .obj [("message", .str "Invalid credentials")]

/-- A server that gives every request the same status and body. -/
def constServer (status : Nat) (body : JSVal) : Request → FetchOutcome :=
  fun _ => .parsed status body

/-- A booking row for destination 7. -/
def sampleRow : JSVal := .obj [("booked_state_id", .num "7")]

/-- A bookings listing with the same destination booked twice. -/
def sampleListing : JSVal := .obj [("rows", .arr [sampleRow, sampleRow])]

/-- A network that answers by URL: the listing of user `u1`, and destination
7, whose record it words differently from the second request on; any other
URL is not found. -/
def sampleNet : Nat → Request → FetchOutcome := fun n req =>
  if req.url = "http://127.0.0.1:8443/v2/bookings/user/u1" then .parsed 200 sampleListing
  else if req.url = "http://127.0.0.1:3000/get/7" then
    (if n = 1 then .parsed 200 (.obj [("data", .str "Goa")])
     else .parsed 200 (.obj [("data", .str "Goa, asked again")]))
  else .parsed 404 (.obj [("message", .str "Not found")])

/-- The two turns of the loop against `sampleNet`. -/
def sampleTurns : List RowTrace :=
  [{ row := sampleRow, stateId := "7", status := 200,
     body := .obj [("data", .str "Goa")], data := .str "Goa" },
   { row := sampleRow, stateId := "7", status := 200,
     body := .obj [("data", .str "Goa, asked again")], data := .str "Goa, asked again" }]

/-- A network that answers by URL the listing of user `u1` and the first
lookup of destination 7, and refuses the connection of every later request. -/
def sampleFailingNet : Nat → Request → FetchOutcome := fun n req =>
  if req.url = "http://127.0.0.1:8443/v2/bookings/user/u1" then .parsed 200 sampleListing
  else if req.url = "http://127.0.0.1:3000/get/7" ∧ n = 1 then
    .parsed 200 (.obj [("data", .str "Goa")])
  else .rejected ⟨"TypeError", "Failed to fetch"⟩

/-- A network that answers by URL the listing of user `u1`, and answers the
lookup of destination 7 with status 200 and the body `null`. -/
def sampleNullLookupNet : Nat → Request → FetchOutcome := fun _ req =>
  if req.url = "http://127.0.0.1:8443/v2/bookings/user/u1" then .parsed 200 sampleListing
  else if req.url = "http://127.0.0.1:3000/get/7" then .parsed 200 .null
  else .parsed 404 (.obj [("message", .str "Not found")])

/-- A network that answers by URL the listing of user `u1` and the first
lookup of destination 7, and answers the second lookup with status 500 and a
JSON body that has no `data`. -/
def sampleErrorStatusNet : Nat → Request → FetchOutcome := fun n req =>
  if req.url = "http://127.0.0.1:8443/v2/bookings/user/u1" then .parsed 200 sampleListing
  else if req.url = "http://127.0.0.1:3000/get/7" ∧ n = 1 then
    .parsed 200 (.obj [("data", .str "Goa")])
  else .parsed 500 (.obj [("error", .str "Internal Server Error")])

/-! ## Auxiliary facts -/

theorem getProp_of_not_nullish (v : JSVal) (k : String) (h : v.isNullish = false) :
    v.getProp k = .ok (v.optProp k) := by
  cases v <;> simp_all [JSVal.getProp, JSVal.optProp, JSVal.isNullish]

theorem strictEqStr_iff (v : JSVal) (s : String) : v.strictEqStr s = true ↔ v = .str s := by
  cases v <;> simp [JSVal.strictEqStr]

theorem convertsToText_iff (v : JSVal) : convertsToText v = true ↔ ∃ t, v.toStr = .ok t := by
  unfold convertsToText
  cases v.toStr <;> simp

theorem successBranchCompletes_iff (body : JSVal) :
    successBranchCompletes body = true ↔
      body.isNullish = false ∧ (∃ t, (body.optProp "jwt").toStr = .ok t) ∧
        (∃ t, (body.optProp "userId").toStr = .ok t) := by
  simp [successBranchCompletes, convertsToText_iff, and_assoc]

/-- The whole outcome of `login` when the success branch runs to its end. -/
theorem login_success_outcome
    (server : Request → FetchOutcome) (email password : String) (w : World)
    (body : JSVal) (jwtStr userIdStr : String)
    (hresp : server (signinRequest email password) = .parsed 200 body)
    (hbody : body.isNullish = false)
    (hjwt : (body.optProp "jwt").toStr = .ok jwtStr)
    (huid : (body.optProp "userId").toStr = .ok userIdStr) :
    login server email password w =
      { result := .ok (.success (body.optProp "jwt") (body.optProp "userId") (body.optProp "role"))
        world :=
          { cookieWrites := w.cookieWrites ++ ["token=" ++ jwtStr ++ "; expires=" ++ "86400"]
            localStorage := setItem "userId" userIdStr w.localStorage
            user := some { userId := body.optProp "userId", role := body.optProp "role" }
            redirects := w.redirects ++ [roleTarget (body.optProp "role")]
            requests := w.requests ++ [signinRequest email password]
            sinkCalls := w.sinkCalls } } := by
  have hg := fun k => getProp_of_not_nullish body k hbody
  by_cases hrole : (body.optProp "role").strictEqStr "ADMIN" = true <;>
    simp [login, loginTry, Eff.tryCatch, bind, Eff.andThen, fetchJson, hresp, Eff.compute, pure,
      Eff.ret, hg, hjwt, huid, writeCookie, storageSet, setUser, navigate, Eff.effect, hrole,
      roleTarget]

/-- The outcome of `login` when `fetch` rejects or the body is not JSON. -/
theorem login_failed_request
    (server : Request → FetchOutcome) (email password : String) (w : World) (e : JSError)
    (hresp : server (signinRequest email password) = .rejected e ∨
      ∃ status, server (signinRequest email password) = .unparseable status e) :
    login server email password w =
      { result := .ok (.failure (.str e.message))
        world := { w with requests := w.requests ++ [signinRequest email password] } } := by
  rcases hresp with h | ⟨status, h⟩ <;>
    simp [login, loginTry, Eff.tryCatch, bind, Eff.andThen, fetchJson, h, pure, Eff.ret]

/-- The outcome of `login` on a status other than 200. -/
theorem login_non200_outcome
    (server : Request → FetchOutcome) (email password : String) (w : World)
    (status : Nat) (body : JSVal)
    (hresp : server (signinRequest email password) = .parsed status body)
    (hstatus : status ≠ 200) :
    (login server email password w).world
        = { w with requests := w.requests ++ [signinRequest email password] } ∧
    (∃ m, (login server email password w).result = .ok (.failure m)) ∧
    (∀ m, body.getProp "message" = .ok m →
        (login server email password w).result = .ok (.failure m)) := by
  cases body <;>
    simp [login, loginTry, Eff.tryCatch, bind, Eff.andThen, fetchJson, hresp, hstatus, Eff.compute,
      pure, Eff.ret, JSVal.getProp]

/-- The result of `login` on a status other than 200 when `r.message` throws. -/
theorem login_non200_unreadable
    (server : Request → FetchOutcome) (email password : String) (w : World)
    (status : Nat) (body : JSVal) (e : JSError)
    (hresp : server (signinRequest email password) = .parsed status body)
    (hstatus : status ≠ 200) (he : body.getProp "message" = .error e) :
    (login server email password w).result = .ok (.failure (.str e.message)) := by
  simp [login, loginTry, Eff.tryCatch, bind, Eff.andThen, fetchJson, hresp, hstatus, Eff.compute,
    pure, Eff.ret, he]

/-- The result of `login` on status 200 when the success branch is cut short. -/
theorem login_200_incomplete
    (server : Request → FetchOutcome) (email password : String) (w : World) (body : JSVal)
    (hresp : server (signinRequest email password) = .parsed 200 body)
    (hnot : successBranchCompletes body = false) :
    ∃ e : JSError, (login server email password w).result = .ok (.failure (.str e.message)) := by
  by_cases hbody : body.isNullish = false
  · have hg := fun k => getProp_of_not_nullish body k hbody
    cases hjwt : (body.optProp "jwt").toStr with
    | error e =>
      exact ⟨e, by simp [login, loginTry, Eff.tryCatch, bind, Eff.andThen, fetchJson, hresp,
        Eff.compute, pure, Eff.ret, hg, hjwt]⟩
    | ok jwtStr =>
      cases huid : (body.optProp "userId").toStr with
      | error e =>
        exact ⟨e, by simp [login, loginTry, Eff.tryCatch, bind, Eff.andThen, fetchJson, hresp,
          Eff.compute, pure, Eff.ret, hg, hjwt, huid, writeCookie, Eff.effect]⟩
      | ok userIdStr =>
        have := (successBranchCompletes_iff body).2 ⟨hbody, ⟨jwtStr, hjwt⟩, ⟨userIdStr, huid⟩⟩
        simp [this] at hnot
  · cases body <;> simp [JSVal.isNullish] at hbody
    · exact ⟨_, by simp [login, loginTry, Eff.tryCatch, bind, Eff.andThen, fetchJson, hresp,
        Eff.compute, pure, Eff.ret, JSVal.getProp]; rfl⟩
    · exact ⟨_, by simp [login, loginTry, Eff.tryCatch, bind, Eff.andThen, fetchJson, hresp,
        Eff.compute, pure, Eff.ret, JSVal.getProp]; rfl⟩

/-- The request log after `login`, whatever the network does. -/
theorem login_requests (server : Request → FetchOutcome) (email password : String) (w : World) :
    (login server email password w).world.requests
      = w.requests ++ [signinRequest email password] := by
  cases hresp : server (signinRequest email password) with
  | rejected e => rw [login_failed_request server email password w e (Or.inl hresp)]
  | unparseable status e => rw [login_failed_request server email password w e (Or.inr ⟨status, hresp⟩)]
  | parsed status body =>
    by_cases hstatus : status = 200
    · subst hstatus
      by_cases hbody : body.isNullish = false
      · have hg := fun k => getProp_of_not_nullish body k hbody
        cases hjwt : (body.optProp "jwt").toStr <;>
        cases huid : (body.optProp "userId").toStr <;>
        by_cases hrole : (body.optProp "role").strictEqStr "ADMIN" = true <;>
          simp [login, loginTry, Eff.tryCatch, bind, Eff.andThen, fetchJson, hresp, Eff.compute,
            pure, Eff.ret, hg, hjwt, huid, writeCookie, storageSet, setUser, navigate,
            Eff.effect, hrole]
      · cases body <;> simp [JSVal.isNullish] at hbody <;>
          simp [login, loginTry, Eff.tryCatch, bind, Eff.andThen, fetchJson, hresp, Eff.compute,
            pure, Eff.ret, JSVal.getProp]
    · rw [(login_non200_outcome server email password w status body hresp hstatus).1]

theorem sameButRequests_refl (w : World) : sameButRequests w w :=
  ⟨rfl, rfl, rfl, rfl, rfl⟩

/-- The enrichment loop touches nothing but the request log. -/
theorem enrichRows_frame (net : Nat → Request → FetchOutcome) :
    ∀ (rows : List JSVal) (n : Nat) (acc : List JSVal) (w : World),
      sameButRequests w (enrichRows net n rows acc w).world := by
  intro rows
  induction rows with
  | nil => intro n acc w; exact sameButRequests_refl w
  | cons i rest ih =>
    intro n acc w
    cases hid : i.getProp "booked_state_id" with
    | error e => simp [enrichRows, bind, Eff.andThen, Eff.compute, hid, sameButRequests]
    | ok stateId =>
      cases hstr : stateId.toStr with
      | error e => simp [enrichRows, bind, Eff.andThen, Eff.compute, hid, hstr, sameButRequests]
      | ok s =>
        cases hnet : net n (lookupRequest s) with
        | rejected e =>
          simp [enrichRows, bind, Eff.andThen, Eff.compute, hid, hstr, hnet, fetchJson, sameButRequests]
        | unparseable status e =>
          simp [enrichRows, bind, Eff.andThen, Eff.compute, hid, hstr, hnet, fetchJson, sameButRequests]
        | parsed status body =>
          cases hdata : body.getProp "data" with
          | error e =>
            simp [enrichRows, bind, Eff.andThen, Eff.compute, hid, hstr, hnet, fetchJson, hdata,
              sameButRequests]
          | ok d =>
            have := ih (n + 1) (acc ++ [d]) { w with requests := w.requests ++ [lookupRequest s] }
            simpa [enrichRows, bind, Eff.andThen, Eff.compute, hid, hstr, hnet, fetchJson, hdata,
              sameButRequests] using this

/-- The enrichment loop over rows that all succeed. -/
theorem enrichRows_trace (net : Nat → Request → FetchOutcome) :
    ∀ (turns : List RowTrace) (n : Nat) (acc : List JSVal) (w : World),
      (∀ k t, turns[k]? = some t →
        (∃ id, t.row.getProp "booked_state_id" = .ok id ∧ id.toStr = .ok t.stateId) ∧
        net (n + k) (lookupRequest t.stateId) = .parsed t.status t.body ∧
        t.body.getProp "data" = .ok t.data) →
      enrichRows net n (turns.map (·.row)) acc w =
        { result := .ok (acc ++ turns.map (·.data))
          world := { w with requests := w.requests ++ turns.map (fun t => lookupRequest t.stateId) } } := by
  intro turns
  induction turns with
  | nil => intro n acc w _; simp [enrichRows, pure, Eff.ret]
  | cons t rest ih =>
    intro n acc w h
    obtain ⟨⟨id, hid, hstr⟩, hnet, hdata⟩ := h 0 t (by simp)
    have hrest := ih (n + 1) (acc ++ [t.data])
      { w with requests := w.requests ++ [lookupRequest t.stateId] }
      (fun k u hk => by
        have := h (k + 1) u (by simpa using hk)
        simpa [Nat.add_assoc, Nat.add_comm 1 k] using this)
    simp only [Nat.add_zero] at hnet
    simp [enrichRows, bind, Eff.andThen, Eff.compute, hid, hstr, hnet, fetchJson, hdata, hrest]

/-- The enrichment loop is rejected as soon as the lookup of one row fails. -/
theorem enrichRows_fails (net : Nat → Request → FetchOutcome) :
    ∀ (rows : List JSVal) (n : Nat) (acc : List JSVal) (w : World) (k : Nat) (row : JSVal),
      rows[k]? = some row →
      (∀ id s, row.getProp "booked_state_id" = .ok id → id.toStr = .ok s →
        (net (n + k) (lookupRequest s)).rejects = true) →
      ∃ e, (enrichRows net n rows acc w).result = .error e := by
  intro rows
  induction rows with
  | nil => intro n acc w k row hk; simp at hk
  | cons i rest ih =>
    intro n acc w k row hk hfail
    cases hid : i.getProp "booked_state_id" with
    | error e => exact ⟨e, by simp [enrichRows, bind, Eff.andThen, Eff.compute, hid]⟩
    | ok stateId =>
      cases hstr : stateId.toStr with
      | error e => exact ⟨e, by simp [enrichRows, bind, Eff.andThen, Eff.compute, hid, hstr]⟩
      | ok s =>
        cases hnet : net n (lookupRequest s) with
        | rejected e =>
          exact ⟨e, by simp [enrichRows, bind, Eff.andThen, Eff.compute, hid, hstr, hnet, fetchJson]⟩
        | unparseable status e =>
          exact ⟨e, by simp [enrichRows, bind, Eff.andThen, Eff.compute, hid, hstr, hnet, fetchJson]⟩
        | parsed status body =>
          cases hdata : body.getProp "data" with
          | error e =>
            exact ⟨e, by simp [enrichRows, bind, Eff.andThen, Eff.compute, hid, hstr, hnet,
              fetchJson, hdata]⟩
          | ok d =>
            cases k with
            | zero =>
              simp at hk
              subst hk
              have := hfail stateId s hid hstr
              simp [hnet, FetchOutcome.rejects] at this
            | succ j =>
              have hj : rest[j]? = some row := by simpa using hk
              obtain ⟨e, he⟩ := ih (n + 1) (acc ++ [d])
                { w with requests := w.requests ++ [lookupRequest s] } j row hj
                (fun id s1 h1 h2 => by
                  have := hfail id s1 h1 h2
                  simpa [Nat.add_assoc, Nat.add_comm 1 j] using this)
              exact ⟨e, by simpa [enrichRows, bind, Eff.andThen, Eff.compute, hid, hstr, hnet,
                fetchJson, hdata] using he⟩

/-- The function `fetchuserBookings` leaves the session, the storage, the cookie
writes and the redirects as they were. -/
theorem fetchuserBookings_frame (cookie : String) (net : Nat → Request → FetchOutcome) (w : World) :
    (fetchuserBookings cookie net w).world.user = w.user ∧
    (fetchuserBookings cookie net w).world.localStorage = w.localStorage ∧
    (fetchuserBookings cookie net w).world.cookieWrites = w.cookieWrites ∧
    (fetchuserBookings cookie net w).world.redirects = w.redirects := by
  cases hnet : net 0 (bookingsRequest (getItem "userId" w.localStorage) cookie) with
  | rejected e => simp [fetchuserBookings, bind, Eff.andThen, fetchJson, hnet]
  | unparseable status e => simp [fetchuserBookings, bind, Eff.andThen, fetchJson, hnet]
  | parsed status user_data =>
    cases hrows : user_data.getProp "rows" with
    | error e => simp [fetchuserBookings, bind, Eff.andThen, fetchJson, hnet, Eff.compute, hrows]
    | ok rowsVal =>
      cases hiter : rowsVal.iterate with
      | error e =>
        simp [fetchuserBookings, bind, Eff.andThen, fetchJson, hnet, Eff.compute, hrows, hiter]
      | ok rows =>
        have hf := enrichRows_frame net rows 1 []
          { w with requests := w.requests ++
            [bookingsRequest (getItem "userId" w.localStorage) cookie] }
        cases hloop : enrichRows net 1 rows []
          { w with requests := w.requests ++
            [bookingsRequest (getItem "userId" w.localStorage) cookie] } with
        | mk result world =>
          rw [hloop] at hf
          obtain ⟨h1, h2, h3, h4, _⟩ := hf
          cases result <;>
            simp_all [fetchuserBookings, bind, Eff.andThen, fetchJson, Eff.compute, setData,
              Eff.effect]

/-- The function `removeBooking` touches nothing but the request log. -/
theorem removeBooking_frame (server : Request → FetchOutcome) (id : JSVal) (w : World) :
    sameButRequests w (removeBooking server id w).world := by
  cases hstr : id.toStr with
  | error e => simp [removeBooking, bind, Eff.andThen, Eff.compute, hstr, sameButRequests]
  | ok s =>
    cases hnet : server (removeRequest s) <;>
      simp [removeBooking, bind, Eff.andThen, Eff.compute, hstr, hnet, fetchJson, sameButRequests,
        pure, Eff.ret]

theorem jsSplit_ne_nil (sep : Char) (l : List Char) : jsSplit sep l ≠ [] := by
  cases l with
  | nil => simp [jsSplit]
  | cons c cs =>
    by_cases h : c = sep
    · simp [jsSplit, h]
    · cases hs : jsSplit sep cs <;> simp [jsSplit, h, hs]

/-- The first field of a split is the text before the first separator. -/
theorem jsSplit_head (sep : Char) (l : List Char) :
    (jsSplit sep l)[0]? = some (l.takeWhile (· != sep)) := by
  induction l with
  | nil => simp [jsSplit]
  | cons c cs ih =>
    by_cases h : c = sep
    · simp [jsSplit, h]
    · cases hs : jsSplit sep cs with
      | nil => exact absurd hs (jsSplit_ne_nil sep cs)
      | cons field fields =>
        rw [hs] at ih
        simp at ih
        simp [jsSplit, h, hs, ih, List.takeWhile_cons]

/-- A separator after a text free of separators ends the first field. -/
theorem jsSplit_append (sep : Char) (pre rest : List Char) (h : sep ∉ pre) :
    jsSplit sep (pre ++ sep :: rest) = pre :: jsSplit sep rest := by
  induction pre with
  | nil => simp [jsSplit]
  | cons c cs ih =>
    have hc : c ≠ sep := fun hh => h (by simp [hh])
    have hcs : sep ∉ cs := fun hh => h (by simp [hh])
    simp [jsSplit, hc, ih hcs]

/-- The second field of a cookie text whose first `=` ends `name`. -/
theorem cookieField_after_name (name rest : String) (h : '=' ∉ name.data) :
    cookieField (name ++ "=" ++ rest) = some (beforeFirstEq rest) := by
  have hd : (name ++ "=" ++ rest).data = name.data ++ '=' :: rest.data := by
    simp [String.data_append]
  have h0 := jsSplit_head '=' rest.data
  cases hs : jsSplit '=' rest.data with
  | nil => exact absurd hs (jsSplit_ne_nil _ _)
  | cons field fields =>
    rw [hs] at h0
    simp at h0
    simp [cookieField, splitString, hd, jsSplit_append '=' name.data rest.data h, hs, h0,
      beforeFirstEq]

theorem takeWhile_ne_eq_self_iff (sep : Char) (l : List Char) :
    l.takeWhile (· != sep) = l ↔ sep ∉ l := by
  induction l with
  | nil => simp
  | cons c cs ih =>
    by_cases h : c = sep
    · simp [List.takeWhile_cons, h]
    · have h2 : ¬ sep = c := fun hh => h hh.symm
      simp [List.takeWhile_cons, h, h2, ih]

theorem beforeFirstEq_eq_self_iff (t : String) : beforeFirstEq t = t ↔ '=' ∉ t.data := by
  rw [← takeWhile_ne_eq_self_iff]
  constructor
  · intro h
    have := congrArg String.data h
    simpa [beforeFirstEq] using this
  · intro h
    simp [beforeFirstEq, h]

theorem takeWhile_append_stop (sep : Char) (pre rest : List Char) (h : sep ∉ pre) :
    (pre ++ sep :: rest).takeWhile (· != sep) = pre := by
  induction pre with
  | nil => simp [List.takeWhile_cons]
  | cons c cs ih =>
    have hc : c ≠ sep := fun hh => h (by simp [hh])
    have hcs : sep ∉ cs := fun hh => h (by simp [hh])
    simp [List.takeWhile_cons, hc, ih hcs]

/-- The session after `login`: untouched, or built from a status 200 body. -/
theorem login_user (server : Request → FetchOutcome) (email password : String) (w : World) :
    (login server email password w).world.user = w.user ∨
    ∃ body, server (signinRequest email password) = .parsed 200 body ∧
      (login server email password w).world.user
        = some { userId := body.optProp "userId", role := body.optProp "role" } := by
  cases hresp : server (signinRequest email password) with
  | rejected e =>
    exact Or.inl (by rw [login_failed_request server email password w e (Or.inl hresp)])
  | unparseable status e =>
    exact Or.inl (by rw [login_failed_request server email password w e (Or.inr ⟨status, hresp⟩)])
  | parsed status body =>
    by_cases hstatus : status = 200
    · subst hstatus
      by_cases hbody : body.isNullish = false
      · have hg := fun k => getProp_of_not_nullish body k hbody
        cases hjwt : (body.optProp "jwt").toStr with
        | error e =>
          exact Or.inl (by simp [login, loginTry, Eff.tryCatch, bind, Eff.andThen, fetchJson,
            hresp, Eff.compute, pure, Eff.ret, hg, hjwt])
        | ok jwtStr =>
          cases huid : (body.optProp "userId").toStr with
          | error e =>
            exact Or.inl (by simp [login, loginTry, Eff.tryCatch, bind, Eff.andThen, fetchJson,
              hresp, Eff.compute, pure, Eff.ret, hg, hjwt, huid, writeCookie, Eff.effect])
          | ok userIdStr =>
            exact Or.inr ⟨body, rfl, by
              rw [login_success_outcome server email password w body jwtStr userIdStr hresp
                hbody hjwt huid]⟩
      · refine Or.inl ?_
        cases body <;> simp [JSVal.isNullish] at hbody <;>
          simp [login, loginTry, Eff.tryCatch, bind, Eff.andThen, fetchJson, hresp, Eff.compute,
            pure, Eff.ret, JSVal.getProp]
    · exact Or.inl (by rw [(login_non200_outcome server email password w status body hresp hstatus).1])

/-- The whole outcome of `logout`. -/
theorem logout_outcome (nowUTC : String) (w : World) :
    logout navigate nowUTC w =
      { result := .ok ()
        world := { w with
          cookieWrites := w.cookieWrites ++ ["token=;expires=" ++ nowUTC]
          localStorage := []
          user := none
          redirects := w.redirects ++ ["/signup"] } } := by
  simp [logout, bind, Eff.andThen, writeCookie, storageClear, setUser, navigate, Eff.effect]

/-- A step keeps the session whole when its sign-in server carries identity. -/
theorem step_keeps_session_whole (w : World) (a : Action) (hw : sessionWhole w = true)
    (ha : loginsCarryIdentity [a]) : sessionWhole (step w a) = true := by
  cases a with
  | login server email password =>
    rcases login_user server email password w with h | ⟨body, hresp, h⟩
    · simpa [step, sessionWhole, h] using hw
    · have := ha.1 _ body hresp
      simp [step, sessionWhole, h, this.1, this.2]
  | logout nowUTC => simp [step, sessionWhole, logout_outcome]
  | fetchuserBookings cookie net =>
    simpa [step, sessionWhole, (fetchuserBookings_frame cookie net w).1] using hw
  | removeBooking server id =>
    simpa [step, sessionWhole, (removeBooking_frame server id w).2.2.1] using hw

/-- A run keeps the session whole when its sign-in servers carry identity. -/
theorem run_keeps_session_whole (actions : List Action) :
    ∀ w : World, sessionWhole w = true → loginsCarryIdentity actions →
      sessionWhole (run w actions) = true := by
  induction actions with
  | nil => intro w hw _; simpa [run] using hw
  | cons a rest ih =>
    intro w hw h
    have ha : loginsCarryIdentity [a] := by
      cases a <;> simp_all [loginsCarryIdentity]
    have hrest : loginsCarryIdentity rest := by
      cases a <;> simp_all [loginsCarryIdentity]
    have := ih (step w a) (step_keeps_session_whole w a hw ha) hrest
    simpa [run] using this

/-- The sample administrator server carries identity. -/
theorem carriesIdentity_sampleAdmin : carriesIdentity (constServer 200 sampleAdminBody) := by
  intro req body h
  simp [constServer] at h
  subst h
  decide

/-- Every turn of `sampleTurns` succeeds against `sampleNet`. -/
theorem sampleTurns_succeed : ∀ (k : Nat) (t : RowTrace), sampleTurns[k]? = some t →
    t.row.isNullish = false ∧
    (t.row.optProp "booked_state_id").toStr = .ok t.stateId ∧
    sampleNet (1 + k)
      { method := "GET", url := "http://127.0.0.1:3000/get/" ++ t.stateId, headers := [],
        body := .none } = .parsed t.status t.body ∧
    t.body.isNullish = false ∧
    t.data = t.body.optProp "data" := by
  intro k t h
  rcases k with _ | _ | k
  · simp [sampleTurns] at h
    subst h
    exact ⟨rfl, rfl, rfl, rfl, rfl⟩
  · simp [sampleTurns] at h
    subst h
    exact ⟨rfl, rfl, rfl, rfl, rfl⟩
  · simp [sampleTurns] at h

/-- The second lookup of `sampleRow` is refused by `sampleFailingNet`. -/
theorem sampleRow_lookup_refused : ∀ (id : JSVal) (s : String),
    sampleRow.getProp "booked_state_id" = .ok id → id.toStr = .ok s →
    (sampleFailingNet (1 + 1)
      { method := "GET", url := "http://127.0.0.1:3000/get/" ++ s, headers := [],
        body := .none }).rejects = true := by
  intro id s h1 h2
  have hid : id = .num "7" := by
    have : sampleRow.getProp "booked_state_id" = .ok (.num "7") := rfl
    rw [this] at h1
    cases h1
    rfl
  subst hid
  have hs : s = "7" := by
    have : (JSVal.num "7").toStr = .ok "7" := rfl
    rw [this] at h2
    cases h2
    rfl
  subst hs
  rfl

/-! ## The claims -/

/-- C1: for every sign-in response with status 200 whose body is an object
(its `jwt` and `userId` being values that convert to text), `login` sets the
session to exactly the `userId` and `role` of the body and performs exactly one
redirect, to "/admin" if and only if the role is the string "ADMIN" and to
"/home" for every other role value. -/
theorem login_ok_sets_session_and_redirects
    (server : Request → FetchOutcome) (email password : String) (w : World)
    (body : JSVal) (jwtStr userIdStr : String)
    (hresp : server (signinRequest email password) = .parsed 200 body)
    (hbody : body.isNullish = false)
    (hjwt : (body.optProp "jwt").toStr = .ok jwtStr)
    (huid : (body.optProp "userId").toStr = .ok userIdStr) :
    (login server email password w).world.user
        = some { userId := body.optProp "userId", role := body.optProp "role" } ∧
    ∃ target, (login server email password w).world.redirects = w.redirects ++ [target] ∧
       (target = "/admin" ↔ body.optProp "role" = .str "ADMIN") ∧
       (body.optProp "role" ≠ .str "ADMIN" → target = "/home") := by
  rw [login_success_outcome server email password w body jwtStr userIdStr hresp hbody hjwt huid]
  refine ⟨rfl, roleTarget (body.optProp "role"), rfl, ?_, ?_⟩
  · rw [← strictEqStr_iff]
    unfold roleTarget
    by_cases h : (body.optProp "role").strictEqStr "ADMIN" = true <;> simp [h]
  · intro h
    have : (body.optProp "role").strictEqStr "ADMIN" ≠ true :=
      fun hh => h ((strictEqStr_iff _ _).1 hh)
    simp [roleTarget, this]

/-- Instance of the theorem of C1: an administrator signs in from the initial
state. -/
theorem login_ok_sets_session_and_redirects_witness :
    (constServer 200 sampleAdminBody (signinRequest "a@b.c" "pw") = .parsed 200 sampleAdminBody ∧
      sampleAdminBody.isNullish = false ∧
      (sampleAdminBody.optProp "jwt").toStr = .ok "tok" ∧
      (sampleAdminBody.optProp "userId").toStr = .ok "u1") ∧
    ((login (constServer 200 sampleAdminBody) "a@b.c" "pw" (initial [])).world.user
        = some { userId := sampleAdminBody.optProp "userId",
                 role := sampleAdminBody.optProp "role" } ∧
    ∃ target, (login (constServer 200 sampleAdminBody) "a@b.c" "pw" (initial [])).world.redirects
        = (initial []).redirects ++ [target] ∧
       (target = "/admin" ↔ sampleAdminBody.optProp "role" = .str "ADMIN") ∧
       (sampleAdminBody.optProp "role" ≠ .str "ADMIN" → target = "/home")) :=
  ⟨⟨rfl, rfl, rfl, rfl⟩,
   login_ok_sets_session_and_redirects (constServer 200 sampleAdminBody) "a@b.c" "pw" (initial [])
     sampleAdminBody "tok" "u1" rfl rfl rfl rfl⟩

/-- C2 (counterexample): a sign-in answered with status 500 and the body `null`.
The read of `body.message` throws, and the message `login` returns is the text
of that `TypeError`: it is not `body.message`. -/
theorem login_non200_null_body_message_is_error_text :
    constServer 500 .null (signinRequest "a@b.c" "pw") = .parsed 500 .null ∧
    JSVal.null.getProp "message" = .error (propertyReadError "null" "message") ∧
    (login (constServer 500 .null) "a@b.c" "pw" (initial [])).result
      = .ok (.failure (.str "Cannot read properties of null (reading \x27message\x27)")) ∧
    ¬ ∃ m, JSVal.null.getProp "message" = .ok m ∧
      (login (constServer 500 .null) "a@b.c" "pw" (initial [])).result = .ok (.failure m) := by
  refine ⟨rfl, rfl, rfl, ?_⟩
  rintro ⟨m, hm, _⟩
  simp [JSVal.getProp] at hm

/-- C2 (amended): for every sign-in response whose status is not 200, with a
parsed or an unparseable body, `login` returns a failure result and leaves the
state as it was: no cookie write, no storage write, no change of the session, no
redirect, no sink call; only the request log grows by the sign-in request. The
message is `body.message` when the body parsed and is not null; it is the
message of the error raised when the read of `body.message` throws (the body
is null) and when the body is unparseable. -/
theorem login_non200_returns_failure_and_changes_nothing
    (server : Request → FetchOutcome) (email password : String) (w : World) (status : Nat)
    (hresp : (server (signinRequest email password)).status? = some status)
    (hstatus : status ≠ 200) :
    (∃ m, (login server email password w).result = .ok (.failure m)) ∧
    (∀ st body, server (signinRequest email password) = .parsed st body →
      body.isNullish = false →
      (login server email password w).result = .ok (.failure (body.optProp "message"))) ∧
    (∀ st body e, server (signinRequest email password) = .parsed st body →
      body.getProp "message" = .error e →
      (login server email password w).result = .ok (.failure (.str e.message))) ∧
    (∀ st e, server (signinRequest email password) = .unparseable st e →
      (login server email password w).result = .ok (.failure (.str e.message))) ∧
    (login server email password w).world.cookieWrites = w.cookieWrites ∧
    (login server email password w).world.localStorage = w.localStorage ∧
    (login server email password w).world.user = w.user ∧
    (login server email password w).world.redirects = w.redirects ∧
    (login server email password w).world.sinkCalls = w.sinkCalls ∧
    (login server email password w).world
        = { w with requests := w.requests ++ [signinRequest email password] } := by
  cases hout : server (signinRequest email password) with
  | rejected e => simp [hout, FetchOutcome.status?] at hresp
  | unparseable st e =>
    have hfail := login_failed_request server email password w e (Or.inr ⟨st, hout⟩)
    refine ⟨⟨_, by rw [hfail]⟩, ?_, ?_, ?_, ?_, ?_, ?_, ?_, ?_, ?_⟩
    · intro st2 body h; cases h
    · intro st2 body e2 h; cases h
    · intro st2 e2 h
      cases h
      rw [hfail]
    all_goals rw [hfail]
  | parsed st body =>
    have hst : st = status := by simpa [hout, FetchOutcome.status?] using hresp
    subst hst
    obtain ⟨hw, hres, hmsg⟩ := login_non200_outcome server email password w st body hout hstatus
    refine ⟨hres, ?_, ?_, ?_, ?_, ?_, ?_, ?_, ?_, hw⟩
    · intro st2 body2 h hbody
      cases h
      exact hmsg _ (getProp_of_not_nullish body "message" hbody)
    · intro st2 body2 e h he
      cases h
      exact login_non200_unreadable server email password w st body e hout hstatus he
    · intro st2 e h; cases h
    all_goals rw [hw]

/-- Instance of the amended theorem of C2: a sign-in refused with status 401. -/
theorem login_non200_returns_failure_and_changes_nothing_witness :
    ((constServer 401 sampleRefusalBody (signinRequest "a@b.c" "bad")).status? = some 401 ∧
      401 ≠ 200) ∧
    (login (constServer 401 sampleRefusalBody) "a@b.c" "bad" (initial [("theme", "dark")])).result
      = .ok (.failure (.str "Invalid credentials")) :=
  ⟨⟨rfl, by decide⟩,
   (login_non200_returns_failure_and_changes_nothing (constServer 401 sampleRefusalBody)
     "a@b.c" "bad" (initial [("theme", "dark")]) 401 rfl (by decide)).2.1
     401 sampleRefusalBody rfl rfl⟩

/-- C3 (counterexample): the listing has two rows and every request is answered
with status 200 and a body that parses, the lookup of destination 7 with the
body `null`. No request fails, yet `fetchuserBookings` is rejected after two
requests and the sink is never called. -/
theorem fetchuserBookings_null_lookup_body_is_rejected :
    sampleNullLookupNet 0 (bookingsRequest (some "u1") "token=tok") = .parsed 200 sampleListing ∧
    sampleNullLookupNet 1 (lookupRequest "7") = .parsed 200 .null ∧
    (fetchuserBookings "token=tok" sampleNullLookupNet (initial [("userId", "u1")])).result
      = .error (propertyReadError "null" "data") ∧
    (fetchuserBookings "token=tok" sampleNullLookupNet
      (initial [("userId", "u1")])).world.requests.map (·.url)
      = ["http://127.0.0.1:8443/v2/bookings/user/u1", "http://127.0.0.1:3000/get/7"] ∧
    (fetchuserBookings "token=tok" sampleNullLookupNet (initial [("userId", "u1")])).world.sinkCalls
      = [] := by
  refine ⟨rfl, rfl, rfl, by decide, rfl⟩

/-- C3 (amended): for every bookings response whose `rows` array has N rows,
where every request is answered with a body that parses, every row is not null
and has a `booked_state_id` that converts to text, and every lookup body is not
null, `fetchuserBookings` is fulfilled, it issues 1 + N requests (the listing,
then for each row in row order a `GET` of `/get/` followed by the text of the
`booked_state_id` of that row), and it calls the sink once, with the list of
length N whose k-th element is the `data` field of the response to the lookup of
row k; equal rows are looked up again and kept. -/
theorem fetchuserBookings_enriches_each_row_in_order
    (cookie : String) (net : Nat → Request → FetchOutcome) (w : World)
    (status : Nat) (user_data : JSVal) (turns : List RowTrace)
    (hlist : net 0 (bookingsRequest (getItem "userId" w.localStorage) cookie)
      = .parsed status user_data)
    (hrows : user_data.getProp "rows" = .ok (.arr (turns.map (·.row))))
    (hturn : ∀ (k : Nat) (t : RowTrace), turns[k]? = some t →
        t.row.isNullish = false ∧
        (t.row.optProp "booked_state_id").toStr = .ok t.stateId ∧
        net (1 + k)
          { method := "GET", url := "http://127.0.0.1:3000/get/" ++ t.stateId, headers := [],
            body := .none } = .parsed t.status t.body ∧
        t.body.isNullish = false ∧
        t.data = t.body.optProp "data") :
    (fetchuserBookings cookie net w).result = .ok () ∧
    (fetchuserBookings cookie net w).world.requests =
      w.requests ++ bookingsRequest (getItem "userId" w.localStorage) cookie ::
        turns.map (fun t =>
          { method := "GET", url := "http://127.0.0.1:3000/get/" ++ t.stateId, headers := [],
            body := .none }) ∧
    (fetchuserBookings cookie net w).world.requests.map (·.url) =
      w.requests.map (·.url) ++
        ("http://127.0.0.1:8443/v2/bookings/user/" ++ (getItem "userId" w.localStorage).getD "null") ::
          turns.map (fun t => "http://127.0.0.1:3000/get/" ++ t.stateId) ∧
    (fetchuserBookings cookie net w).world.requests.length
      = w.requests.length + (1 + turns.length) ∧
    (fetchuserBookings cookie net w).world.sinkCalls = w.sinkCalls ++ [turns.map (·.data)] ∧
    (turns.map (·.data)).length = turns.length ∧
    ∀ (k : Nat) (t : RowTrace), turns[k]? = some t →
      (turns.map (·.data))[k]? = some (t.body.optProp "data") := by
  have hturn2 : ∀ k t, turns[k]? = some t →
      (∃ id, t.row.getProp "booked_state_id" = .ok id ∧ id.toStr = .ok t.stateId) ∧
      net (1 + k) (lookupRequest t.stateId) = .parsed t.status t.body ∧
      t.body.getProp "data" = .ok t.data := by
    intro k t hk
    obtain ⟨hrow, hid, hnet, hbody, hdata⟩ := hturn k t hk
    exact ⟨⟨_, getProp_of_not_nullish t.row "booked_state_id" hrow, hid⟩, hnet,
      by rw [hdata]; exact getProp_of_not_nullish t.body "data" hbody⟩
  have hloop := enrichRows_trace net turns 1 []
    { w with requests := w.requests ++
      [bookingsRequest (getItem "userId" w.localStorage) cookie] } hturn2
  have hout : fetchuserBookings cookie net w =
      { result := .ok ()
        world := { w with
          requests := w.requests ++ bookingsRequest (getItem "userId" w.localStorage) cookie ::
            turns.map (fun t => lookupRequest t.stateId)
          sinkCalls := w.sinkCalls ++ [turns.map (·.data)] } } := by
    simp [fetchuserBookings, bind, Eff.andThen, fetchJson, hlist, Eff.compute, hrows,
      JSVal.iterate, hloop, setData, Eff.effect]
  rw [hout]
  refine ⟨rfl, rfl, ?_, ?_, rfl, by simp, ?_⟩
  · simp [bookingsRequest, lookupRequest, Function.comp_def]
  · simp [Nat.add_comm]
  · intro k t hk
    simp [List.getElem?_map, hk, (hturn k t hk).2.2.2.2]

/-- Instance of the amended theorem of C3: a listing of two rows for the same
destination gives the listing request and two lookups of `/get/7`, and two
elements delivered. -/
theorem fetchuserBookings_enriches_each_row_in_order_witness :
    (sampleNet 0 (bookingsRequest (getItem "userId" (initial [("userId", "u1")]).localStorage)
        "token=tok") = .parsed 200 sampleListing ∧
      sampleListing.getProp "rows" = .ok (.arr (sampleTurns.map (·.row)))) ∧
    ((fetchuserBookings "token=tok" sampleNet (initial [("userId", "u1")])).result = .ok () ∧
      (fetchuserBookings "token=tok" sampleNet (initial [("userId", "u1")])).world.requests.map
          (·.url)
        = ["http://127.0.0.1:8443/v2/bookings/user/u1", "http://127.0.0.1:3000/get/7",
           "http://127.0.0.1:3000/get/7"] ∧
      (fetchuserBookings "token=tok" sampleNet (initial [("userId", "u1")])).world.sinkCalls
        = [[.str "Goa", .str "Goa, asked again"]]) :=
  ⟨⟨rfl, rfl⟩,
   (fetchuserBookings_enriches_each_row_in_order "token=tok" sampleNet (initial [("userId", "u1")])
      200 sampleListing sampleTurns rfl rfl sampleTurns_succeed).1,
   (fetchuserBookings_enriches_each_row_in_order "token=tok" sampleNet (initial [("userId", "u1")])
      200 sampleListing sampleTurns rfl rfl sampleTurns_succeed).2.2.1,
   (fetchuserBookings_enriches_each_row_in_order "token=tok" sampleNet (initial [("userId", "u1")])
      200 sampleListing sampleTurns rfl rfl sampleTurns_succeed).2.2.2.2.1⟩

/-- C4 (counterexample): the lookup of the second row is answered with status
500 and a JSON body. The request has failed, but the status is never read:
`fetchuserBookings` is fulfilled and the sink is called, with a list whose
second element is `undefined`. -/
theorem fetchuserBookings_error_status_lookup_is_delivered :
    sampleErrorStatusNet 0 (bookingsRequest (some "u1") "token=tok")
      = .parsed 200 sampleListing ∧
    sampleErrorStatusNet 2 (lookupRequest "7")
      = .parsed 500 (.obj [("error", .str "Internal Server Error")]) ∧
    (fetchuserBookings "token=tok" sampleErrorStatusNet (initial [("userId", "u1")])).result
      = .ok () ∧
    (fetchuserBookings "token=tok" sampleErrorStatusNet
      (initial [("userId", "u1")])).world.sinkCalls = [[.str "Goa", .undefined]] := by
  refine ⟨rfl, rfl, rfl, rfl⟩

/-- C4 (amended): for every bookings response with a `rows` array and every row
index k, if the request that looks up row k is rejected (`fetch` is rejected by
the network, or the body of the response is not JSON), `fetchuserBookings` is
rejected and the sink is not called: neither the results accumulated so far nor
any other list is delivered. -/
theorem fetchuserBookings_row_failure_delivers_nothing
    (cookie : String) (net : Nat → Request → FetchOutcome) (w : World)
    (status : Nat) (user_data : JSVal) (rows : List JSVal) (k : Nat) (row : JSVal)
    (hlist : net 0 (bookingsRequest (getItem "userId" w.localStorage) cookie)
      = .parsed status user_data)
    (hrows : user_data.getProp "rows" = .ok (.arr rows))
    (hk : rows[k]? = some row)
    (hfail : ∀ id s, row.getProp "booked_state_id" = .ok id → id.toStr = .ok s →
        (net (1 + k)
          { method := "GET", url := "http://127.0.0.1:3000/get/" ++ s, headers := [],
            body := .none }).rejects = true) :
    (∃ e, (fetchuserBookings cookie net w).result = .error e) ∧
    (fetchuserBookings cookie net w).world.sinkCalls = w.sinkCalls := by
  have hf := enrichRows_frame net rows 1 []
    { w with requests := w.requests ++
      [bookingsRequest (getItem "userId" w.localStorage) cookie] }
  obtain ⟨e, he⟩ := enrichRows_fails net rows 1 []
    { w with requests := w.requests ++
      [bookingsRequest (getItem "userId" w.localStorage) cookie] } k row hk hfail
  cases hloop : enrichRows net 1 rows []
    { w with requests := w.requests ++
      [bookingsRequest (getItem "userId" w.localStorage) cookie] } with
  | mk result world =>
    rw [hloop] at hf he
    obtain ⟨_, _, _, _, h5⟩ := hf
    simp at he h5
    subst he
    refine ⟨⟨e, ?_⟩, ?_⟩ <;>
      simp [fetchuserBookings, bind, Eff.andThen, fetchJson, hlist, Eff.compute, hrows,
        JSVal.iterate, hloop, h5]

/-- Instance of the amended theorem of C4: a listing of two rows whose second
lookup is refused by the network. -/
theorem fetchuserBookings_row_failure_delivers_nothing_witness :
    (sampleFailingNet 0
        (bookingsRequest (getItem "userId" (initial [("userId", "u1")]).localStorage) "token=tok")
        = .parsed 200 sampleListing ∧
      sampleListing.getProp "rows" = .ok (.arr [sampleRow, sampleRow]) ∧
      [sampleRow, sampleRow][1]? = some sampleRow ∧
      (sampleFailingNet (1 + 1)
        { method := "GET", url := "http://127.0.0.1:3000/get/" ++ "7", headers := [],
          body := .none }).rejects = true) ∧
    ((∃ e, (fetchuserBookings "token=tok" sampleFailingNet
        (initial [("userId", "u1")])).result = .error e) ∧
      (fetchuserBookings "token=tok" sampleFailingNet (initial [("userId", "u1")])).world.sinkCalls
        = (initial [("userId", "u1")]).sinkCalls) :=
  ⟨⟨rfl, rfl, rfl, rfl⟩,
   fetchuserBookings_row_failure_delivers_nothing "token=tok" sampleFailingNet
     (initial [("userId", "u1")]) 200 sampleListing [sampleRow, sampleRow] 1 sampleRow rfl rfl rfl
     sampleRow_lookup_refused⟩

/-- C5: from every prior state, `logout`, called with a navigation function of
the router, is fulfilled, leaves the session null and the storage empty (no key
is left, whatever it was), and performs one redirect, to "/signup"; a second
`logout` leaves the same session and the same storage as the first. -/
theorem logout_clears_session_and_storage (nowUTC nowUTC2 : String) (w : World) :
    (logout navigate nowUTC w).result = .ok () ∧
    (logout navigate nowUTC w).world.user = none ∧
    (logout navigate nowUTC w).world.localStorage = [] ∧
    (∀ key, getItem key (logout navigate nowUTC w).world.localStorage = none) ∧
    (logout navigate nowUTC w).world.redirects = w.redirects ++ ["/signup"] ∧
    (logout navigate nowUTC2 (logout navigate nowUTC w).world).world.user
      = (logout navigate nowUTC w).world.user ∧
    (logout navigate nowUTC2 (logout navigate nowUTC w).world).world.localStorage
      = (logout navigate nowUTC w).world.localStorage := by
  simp [logout_outcome, getItem]

/-- C6 (evaluation at the failing inputs): with `tour` undefined, and with a
tour object that has no `startDate`, the card renders without throwing, every
other missing field is shown as the empty string and no destination item is
rendered, but the date text is "Invalid Date", not the empty string. -/
theorem TourCard_missing_startDate_shows_invalid_date
    (localeDate : JSVal → Except JSError String) :
    TourCard localeDate .undefined =
      .ok { imageUrl := "", title := "", duration := "", date := "Invalid Date",
            description := "", price := "", destinations := [] } ∧
    TourCard localeDate (.obj [("tourId", .num "3"), ("title", .str "Goa")]) =
      .ok { imageUrl := "", title := "Goa", duration := "", date := "Invalid Date",
            description := "", price := "", destinations := [] } ∧
    "Invalid Date" ≠ "" :=
  ⟨rfl, rfl, by decide⟩

/-- C7 (counterexample): a status 200 sign-in response without a `role` leaves,
after one `login` from the initial state, a session whose `userId` holds a value
and whose `role` is `undefined`. -/
theorem session_half_populated_after_login_without_role :
    (run (initial []) [.login (constServer 200 sampleBodyWithoutRole) "a@b.c" "pw"]).user.map
        (fun s => (populated s.userId, populated s.role)) = some (true, false) ∧
    sessionWhole (run (initial []) [.login (constServer 200 sampleBodyWithoutRole) "a@b.c" "pw"])
      = false := by
  decide

/-- C7 (amended): in every state reached from the initial state by any sequence
of `login`, `logout`, `fetchuserBookings` and `removeBooking` calls, where the
status 200 responses of the sign-in servers carry a `userId` and a `role` and
the other responses are arbitrary, the session is null or has both `userId` and
`role` holding a value. -/
theorem session_null_or_whole_when_logins_carry_identity
    (storage : List (String × String)) (actions : List Action)
    (h : loginsCarryIdentity actions) :
    (run (initial storage) actions).user = none ∨
    ∃ s, (run (initial storage) actions).user = some s ∧
      s.userId.isNullish = false ∧ s.role.isNullish = false := by
  have hw := run_keeps_session_whole actions (initial storage) rfl h
  cases hu : (run (initial storage) actions).user with
  | none => exact Or.inl rfl
  | some s =>
    refine Or.inr ⟨s, rfl, ?_⟩
    simpa [sessionWhole, hu, populated] using hw

/-- Instance of the amended theorem of C7: a run of three operations. -/
theorem session_null_or_whole_when_logins_carry_identity_witness :
    loginsCarryIdentity
      [.login (constServer 200 sampleAdminBody) "a@b.c" "pw",
       .fetchuserBookings "token=tok" (fun _ _ => .rejected ⟨"TypeError", "Failed to fetch"⟩),
       .removeBooking (constServer 200 .null) (.num "4")] ∧
    ((run (initial [])
      [.login (constServer 200 sampleAdminBody) "a@b.c" "pw",
       .fetchuserBookings "token=tok" (fun _ _ => .rejected ⟨"TypeError", "Failed to fetch"⟩),
       .removeBooking (constServer 200 .null) (.num "4")]).user = none ∨
    ∃ s, (run (initial [])
      [.login (constServer 200 sampleAdminBody) "a@b.c" "pw",
       .fetchuserBookings "token=tok" (fun _ _ => .rejected ⟨"TypeError", "Failed to fetch"⟩),
       .removeBooking (constServer 200 .null) (.num "4")]).user = some s ∧
      s.userId.isNullish = false ∧ s.role.isNullish = false) :=
  ⟨⟨carriesIdentity_sampleAdmin, trivial⟩,
   session_null_or_whole_when_logins_carry_identity [] _ ⟨carriesIdentity_sampleAdmin, trivial⟩⟩

/-- C8 (counterexample): the body `null` parses and the status is 200, yet
`login` resolves to a failure result, whose message is the text of the
`TypeError` raised by `r.jwt`, and not to a success result. -/
theorem login_null_body_status_200_is_failure :
    constServer 200 .null (signinRequest "a@b.c" "pw") = .parsed 200 .null ∧
    (login (constServer 200 .null) "a@b.c" "pw" (initial [])).result
      = .ok (.failure (.str "Cannot read properties of null (reading \x27jwt\x27)")) ∧
    ¬ ∃ jwt userId role, (login (constServer 200 .null) "a@b.c" "pw" (initial [])).result
      = .ok (.success jwt userId role) := by
  refine ⟨rfl, rfl, ?_⟩
  rintro ⟨jwt, userId, role, h⟩
  have h2 : (login (constServer 200 .null) "a@b.c" "pw" (initial [])).result
      = .ok (.failure (.str (propertyReadError "null" "jwt").message)) := rfl
  rw [h2] at h
  cases h

/-- C8 (amended): for every outcome of the single sign-in request, `login`
resolves to a result object, never rejects, and issues exactly one request. The
result is the success object carrying the `jwt`, `userId` and `role` of the
response exactly when the body parsed, the status is 200, the body is not null
and its `jwt` and `userId` convert to text; it is a failure object in every other
case, with the message of the error on a network or parse failure. -/
theorem login_always_resolves_to_a_result
    (server : Request → FetchOutcome) (email password : String) (w : World) :
    (∃ r, (login server email password w).result = .ok r) ∧
    (login server email password w).world.requests
      = w.requests ++ [signinRequest email password] ∧
    (∀ body, server (signinRequest email password) = .parsed 200 body →
      successBranchCompletes body = true →
      (login server email password w).result
        = .ok (.success (body.optProp "jwt") (body.optProp "userId") (body.optProp "role"))) ∧
    ((∃ jwt userId role, (login server email password w).result = .ok (.success jwt userId role)) ↔
      ∃ body, server (signinRequest email password) = .parsed 200 body ∧
        successBranchCompletes body = true) ∧
    ((¬ ∃ body, server (signinRequest email password) = .parsed 200 body ∧
        successBranchCompletes body = true) →
      ∃ m, (login server email password w).result = .ok (.failure m)) ∧
    (∀ e, (server (signinRequest email password) = .rejected e ∨
        ∃ status, server (signinRequest email password) = .unparseable status e) →
      (login server email password w).result = .ok (.failure (.str e.message))) := by
  have hsucc : ∀ body, server (signinRequest email password) = .parsed 200 body →
      successBranchCompletes body = true →
      (login server email password w).result
        = .ok (.success (body.optProp "jwt") (body.optProp "userId") (body.optProp "role")) := by
    intro body hresp hc
    obtain ⟨hbody, ⟨jwtStr, hjwt⟩, ⟨userIdStr, huid⟩⟩ := (successBranchCompletes_iff body).1 hc
    rw [login_success_outcome server email password w body jwtStr userIdStr hresp hbody hjwt huid]
  have hfail : (¬ ∃ body, server (signinRequest email password) = .parsed 200 body ∧
        successBranchCompletes body = true) →
      ∃ m, (login server email password w).result = .ok (.failure m) := by
    intro hno
    cases hresp : server (signinRequest email password) with
    | rejected e =>
      exact ⟨_, by rw [login_failed_request server email password w e (Or.inl hresp)]⟩
    | unparseable status e =>
      exact ⟨_, by rw [login_failed_request server email password w e (Or.inr ⟨status, hresp⟩)]⟩
    | parsed status body =>
      by_cases hstatus : status = 200
      · subst hstatus
        obtain ⟨e, he⟩ := login_200_incomplete server email password w body hresp
          (by
            cases hc : successBranchCompletes body
            · rfl
            · exact absurd ⟨body, hresp, hc⟩ hno)
        exact ⟨_, he⟩
      · exact (login_non200_outcome server email password w status body hresp hstatus).2.1
  refine ⟨?_, login_requests server email password w, hsucc, ⟨?_, ?_⟩, hfail, ?_⟩
  · by_cases hc : ∃ body, server (signinRequest email password) = .parsed 200 body ∧
        successBranchCompletes body = true
    · obtain ⟨body, hresp, hb⟩ := hc
      exact ⟨_, hsucc body hresp hb⟩
    · obtain ⟨m, hm⟩ := hfail hc
      exact ⟨_, hm⟩
  · rintro ⟨jwt, userId, role, hres⟩
    by_contra hc
    obtain ⟨m, hm⟩ := hfail hc
    rw [hm] at hres
    cases hres
  · rintro ⟨body, hresp, hb⟩
    exact ⟨_, _, _, hsucc body hresp hb⟩
  · intro e he
    rw [login_failed_request server email password w e he]

/-- Instance of the amended theorem of C8: an administrator signs in. -/
theorem login_always_resolves_to_a_result_witness :
    (constServer 200 sampleAdminBody (signinRequest "a@b.c" "pw") = .parsed 200 sampleAdminBody ∧
      successBranchCompletes sampleAdminBody = true) ∧
    (login (constServer 200 sampleAdminBody) "a@b.c" "pw" (initial [])).result
      = .ok (.success (.str "tok") (.str "u1") (.str "ADMIN")) :=
  ⟨⟨rfl, rfl⟩,
   (login_always_resolves_to_a_result (constServer 200 sampleAdminBody) "a@b.c" "pw"
     (initial [])).2.2.1 sampleAdminBody rfl rfl⟩

/-- C9 (counterexample): in the cookie text "sid=abc==; token=abc" the pair
`sid=abc==` precedes the pair `token=abc`, and the value sent after "Bearer " is
the token "abc" all the same. -/
theorem bearer_after_another_pair_can_equal_token :
    "sid=abc==; token=abc" = "sid" ++ "=" ++ "abc==" ++ "; token=" ++ "abc" ∧
    splitString '=' "sid=abc==; token=abc" = ["sid", "abc", "", "; token", "abc"] ∧
    bearerValue "sid=abc==; token=abc" = "abc" := by
  decide

/-- C9 (amended): the bearer value `fetchuserBookings` sends is the second field
of the cookie text split on `=`. For the cookie text "token=" followed by `t` it
is the part of `t` before its first `=`, which equals `t` if and only if `t`
holds no `=`. When a pair `name=value` precedes the token pair, it is the part of
`value; token=t` before its first `=`; if `value` holds no `=` this is `value`
followed by "; token", which is not the token (a token holds no `;`). -/
theorem bearer_value_is_second_field_of_cookie
    (userId : Option String) (t name value : String) :
    (bookingsRequest userId ("token=" ++ t)).headers.lookup "Authorization"
      = some ("Bearer " ++ bearerValue ("token=" ++ t)) ∧
    bearerValue ("token=" ++ t) = beforeFirstEq t ∧
    (bearerValue ("token=" ++ t) = t ↔ '=' ∉ t.data) ∧
    ('=' ∉ name.data →
      bearerValue (name ++ "=" ++ value ++ "; token=" ++ t)
        = beforeFirstEq (value ++ "; token=" ++ t)) ∧
    ('=' ∉ name.data → '=' ∉ value.data → ';' ∉ t.data →
      bearerValue (name ++ "=" ++ value ++ "; token=" ++ t) = value ++ "; token" ∧
      bearerValue (name ++ "=" ++ value ++ "; token=" ++ t) ≠ t) := by
  have htok : bearerValue ("token=" ++ t) = beforeFirstEq t := by
    have := cookieField_after_name "token" t (by decide)
    have hjoin : "token" ++ "=" ++ t = "token=" ++ t := by
      have : "token" ++ "=" = "token=" := by decide
      rw [this]
    rw [hjoin] at this
    simp [bearerValue, this]
  have hpair : '=' ∉ name.data →
      bearerValue (name ++ "=" ++ value ++ "; token=" ++ t)
        = beforeFirstEq (value ++ "; token=" ++ t) := by
    intro hname
    have := cookieField_after_name name (value ++ "; token=" ++ t) hname
    have hjoin : name ++ "=" ++ (value ++ "; token=" ++ t)
        = name ++ "=" ++ value ++ "; token=" ++ t := by
      simp [String.append_assoc]
    rw [hjoin] at this
    simp [bearerValue, this]
  refine ⟨rfl, htok, ?_, hpair, ?_⟩
  · rw [htok]
    exact beforeFirstEq_eq_self_iff t
  · intro hname hvalue ht
    have hval : bearerValue (name ++ "=" ++ value ++ "; token=" ++ t) = value ++ "; token" := by
      rw [hpair hname]
      have hd : (value ++ "; token=" ++ t).data
          = (value.data ++ ("; token".data)) ++ '=' :: t.data := by
        have : ("; token=" : String).data = "; token".data ++ ['='] := by decide
        simp [String.data_append, this]
      have hno : '=' ∉ value.data ++ "; token".data := by
        have : '=' ∉ "; token".data := by decide
        simp [hvalue, this]
      apply String.ext
      simp only [beforeFirstEq, hd, takeWhile_append_stop '=' _ t.data hno, String.data_append]
    refine ⟨hval, ?_⟩
    rw [hval]
    intro heq
    apply ht
    rw [← heq]
    have : ';' ∈ "; token".data := by decide
    simp [String.data_append, this]

/-- Instance of the amended theorem of C9: the cookie text
"sid=xyz; token=abc". -/
theorem bearer_value_is_second_field_of_cookie_witness :
    ('=' ∉ "sid".data ∧ '=' ∉ "xyz".data ∧ ';' ∉ "abc".data) ∧
    (bearerValue ("sid" ++ "=" ++ "xyz" ++ "; token=" ++ "abc") = "xyz" ++ "; token" ∧
      bearerValue ("sid" ++ "=" ++ "xyz" ++ "; token=" ++ "abc") ≠ "abc") :=
  ⟨⟨by decide, by decide, by decide⟩,
   (bearer_value_is_second_field_of_cookie none "abc" "sid" "xyz").2.2.2.2
     (by decide) (by decide) (by decide)⟩

/-- C10: a click on Update (on Delete) throws when `handleUpdate`
(`handleDelete`) was not supplied, the default being `null`, and when it is any
other value that is not a function; it throws when `tour` is `undefined` or
`null`, handler supplied or not; with a function supplied and a tour object, it
calls that function once, with the one argument `tour.tourId`, and nothing else:
the result does not depend on the other handler. -/
theorem click_calls_the_supplied_handler_or_throws (p : Props) :
    (p.handleUpdate = .value .undefined → ∃ e, clickUpdate p = .error e) ∧
    (p.handleDelete = .value .undefined → ∃ e, clickDelete p = .error e) ∧
    (∀ v, p.handleUpdate = .value v → ∃ e, clickUpdate p = .error e) ∧
    (∀ v, p.handleDelete = .value v → ∃ e, clickDelete p = .error e) ∧
    (p.tour.isNullish = true →
      (∃ e, clickUpdate p = .error e) ∧ ∃ e, clickDelete p = .error e) ∧
    (∀ f, p.handleUpdate = .fn f → p.tour.isNullish = false →
      clickUpdate p = .ok [{ callee := f, args := [p.tour.optProp "tourId"] }]) ∧
    (∀ g, p.handleDelete = .fn g → p.tour.isNullish = false →
      clickDelete p = .ok [{ callee := g, args := [p.tour.optProp "tourId"] }]) ∧
    (∀ other, clickUpdate { p with handleDelete := other } = clickUpdate p) ∧
    (∀ other, clickDelete { p with handleUpdate := other } = clickDelete p) := by
  have hval : ∀ (what : String) (v : JSVal) (tour : JSVal),
      ∃ e, callWithTourId what (.value v) tour = .error e := by
    intro what v tour
    cases htour : tour.getProp "tourId" with
    | error e => exact ⟨e, by simp [callWithTourId, htour]⟩
    | ok tourId => cases v <;> simp [callWithTourId, htour, defaultNull]
  have hnull : ∀ (what : String) (h : Handler) (tour : JSVal), tour.isNullish = true →
      ∃ e, callWithTourId what h tour = .error e := by
    intro what h tour ht
    cases tour <;> simp [JSVal.isNullish] at ht <;> simp [callWithTourId, JSVal.getProp]
  have hfn : ∀ (what f : String) (tour : JSVal), tour.isNullish = false →
      callWithTourId what (.fn f) tour
        = .ok [{ callee := f, args := [tour.optProp "tourId"] }] := by
    intro what f tour ht
    simp [callWithTourId, getProp_of_not_nullish tour "tourId" ht, defaultNull]
  refine ⟨?_, ?_, ?_, ?_, ?_, ?_, ?_, ?_, ?_⟩
  · intro h
    simpa [clickUpdate, h] using hval "handleUpdate" .undefined p.tour
  · intro h
    simpa [clickDelete, h] using hval "handleDelete" .undefined p.tour
  · intro v h
    simpa [clickUpdate, h] using hval "handleUpdate" v p.tour
  · intro v h
    simpa [clickDelete, h] using hval "handleDelete" v p.tour
  · intro ht
    exact ⟨hnull "handleUpdate" p.handleUpdate p.tour ht,
      hnull "handleDelete" p.handleDelete p.tour ht⟩
  · intro f h ht
    simpa [clickUpdate, h] using hfn "handleUpdate" f p.tour ht
  · intro g h ht
    simpa [clickDelete, h] using hfn "handleDelete" g p.tour ht
  · intro other; rfl
  · intro other; rfl

/-- Instance of the theorem of C10: a card with an update handler and no delete
handler. -/
theorem click_calls_the_supplied_handler_or_throws_witness :
    ((Handler.fn "onUpdate" = .fn "onUpdate" ∧
        (JSVal.obj [("tourId", .num "3")]).isNullish = false) ∧
      clickUpdate { tour := .obj [("tourId", .num "3")], handleDelete := .value .undefined,
                    handleUpdate := .fn "onUpdate" }
        = .ok [{ callee := "onUpdate", args := [.num "3"] }]) ∧
    ((Handler.value .undefined = .value .undefined) ∧
      ∃ e, clickDelete { tour := .obj [("tourId", .num "3")], handleDelete := .value .undefined,
                         handleUpdate := .fn "onUpdate" } = .error e) :=
  ⟨⟨⟨rfl, rfl⟩,
    (click_calls_the_supplied_handler_or_throws
      { tour := .obj [("tourId", .num "3")], handleDelete := .value .undefined,
        handleUpdate := .fn "onUpdate" }).2.2.2.2.2.1 "onUpdate" rfl rfl⟩,
   ⟨rfl,
    (click_calls_the_supplied_handler_or_throws
      { tour := .obj [("tourId", .num "3")], handleDelete := .value .undefined,
        handleUpdate := .fn "onUpdate" }).2.1 rfl⟩⟩

end WonderWims
